import Mathlib

/-!
# Verification of the LyShine 2D drawing interface (`IDraw2d.h`)

Shallow embedding of `src/Gems/LyShine/Code/Include/LyShine/IDraw2d.h` from the o3de
repository: the `IDraw2d` data model (alignment, rounding, render state, option records)
and the `Draw2dHelper` scoped helper class.

Conventions of the embedding:
* C++ `float` arithmetic is modelled exactly over `ℚ`; `floor`/`ceil` are `Int.floor`/
  `Int.ceil` cast back to `ℚ`.
* `AZ::Vector2` / `AZ::Vector3` / `AZ::Color` become rational records `Vec2` / `Vec3` /
  `Color`.
* The concrete draw engine behind the pure-virtual `IDraw2d` interface is not part of the
  translated source; the small portion of its behaviour the helper claims depend on
  (the defer flag, the stored default option records, recording submitted draw calls) is
  modelled from the spec, and every such definition says so in its doc comment.
* Stateful C++ code (the helper mutating the engine through its `m_draw2d` pointer)
  becomes explicit state passing: each member function takes and returns the engine
  state (`Option EngineState`, `none` meaning no engine exists) alongside the helper's
  own record.
-/

/-- 2D vector over exact rationals, modelling `AZ::Vector2`. -/
structure Vec2 where
  x : ℚ
  y : ℚ
deriving DecidableEq, Repr

/-- 3D vector over exact rationals, modelling `AZ::Vector3` (used for RGB colors). -/
structure Vec3 where
  x : ℚ
  y : ℚ
  z : ℚ
deriving DecidableEq, Repr

/-- RGBA color over exact rationals, modelling `AZ::Color`. -/
structure Color where
  r : ℚ
  g : ℚ
  b : ℚ
  a : ℚ
deriving DecidableEq, Repr

/-- Blend factors, modelling the members of `AZ::RHI::BlendFactor` that `IDraw2d.h`
uses (the full Atom enum has more members; only these occur in the source file). -/
inductive BlendFactor where
  | Zero
  | One
  | AlphaSource
  | AlphaSourceInverse
deriving DecidableEq, Repr

/-- Modelling `AZ::RHI::TargetBlendState` (the fields `IDraw2d.h` touches). -/
structure TargetBlendState where
  m_enable : Bool
  m_blendSource : BlendFactor
  m_blendDest : BlendFactor
deriving DecidableEq, Repr

/-- Modelling `AZ::RHI::DepthState` (the field `IDraw2d.h` touches). -/
structure DepthState where
  m_enable : Bool
deriving DecidableEq, Repr

namespace IDraw2d

/-- `IDraw2d::HAlign`. -/
inductive HAlign where
  | Left
  | Center
  | Right
deriving DecidableEq, Repr

/-- `IDraw2d::VAlign`. -/
inductive VAlign where
  | Top
  | Center
  | Bottom
deriving DecidableEq, Repr

/-- `IDraw2d::Rounding`. -/
inductive Rounding where
  | None
  | Nearest
  | Down
  | Up
deriving DecidableEq, Repr

/-- `IDraw2d::RenderState` (a blend state and a depth state). -/
structure RenderState where
  m_blendState : TargetBlendState
  m_depthState : DepthState
deriving DecidableEq, Repr

/-- The `IDraw2d::RenderState` default constructor: enables blending with
`AlphaSource` / `AlphaSourceInverse` factors and disables the depth test. -/
def RenderState.default : RenderState :=
  { m_blendState :=
      { m_enable := true
        m_blendSource := BlendFactor.AlphaSource
        m_blendDest := BlendFactor.AlphaSourceInverse }
    m_depthState := { m_enable := false } }

/-- `IDraw2d::ImageOptions`. -/
structure ImageOptions where
  color : Vec3
  pixelRounding : Rounding
  m_clamp : Bool
  m_renderState : RenderState
deriving DecidableEq, Repr

/-- The in-class member initializers of `IDraw2d::ImageOptions`: white tint,
`Nearest` rounding, no clamp, default render state. -/
def ImageOptions.default : ImageOptions :=
  { color := { x := 1, y := 1, z := 1 }
    pixelRounding := Rounding.Nearest
    m_clamp := false
    m_renderState := RenderState.default }

/-- `IDraw2d::TextOptions`. -/
structure TextOptions where
  fontName : String
  effectIndex : Nat
  color : Vec3
  horizontalAlignment : HAlign
  verticalAlignment : VAlign
  dropShadowOffset : Vec2
  dropShadowColor : Color
  rotation : ℚ
  depthTestEnabled : Bool
deriving DecidableEq, Repr

/-- Modelled from the spec: the default `TextOptions` record. The `TextOptions` struct in
`IDraw2d.h` declares no member initializers; the concrete engine implementation (not under
src/) builds the default record whose values the field doc comments in `IDraw2d.h` state:
fontName "default", effectIndex 0, color (1,1,1), `Left`/`Top` alignment, zero drop-shadow
offset, drop-shadow color (0,0,0,0), rotation 0, depth test disabled. -/
def TextOptions.default : TextOptions :=
  { fontName := "default"
    effectIndex := 0
    color := { x := 1, y := 1, z := 1 }
    horizontalAlignment := HAlign.Left
    verticalAlignment := VAlign.Top
    dropShadowOffset := { x := 0, y := 0 }
    dropShadowColor := { r := 0, g := 0, b := 0, a := 0 }
    rotation := 0
    depthTestEnabled := false }

/-- `IDraw2d::VertexPosColUV`. -/
structure VertexPosColUV where
  position : Vec2
  color : Color
  uv : Vec2
deriving DecidableEq, Repr

end IDraw2d

namespace Draw2dHelper

/-- `Draw2dHelper::Align` (static): given a position, a size and an alignment, return
the top-left corner of the aligned quad. Direct translation of the two `switch`
statements; `result` starts at `AZ::Vector2::CreateZero()`. -/
def Align (position size : Vec2) (horizontalAlignment : IDraw2d.HAlign)
    (verticalAlignment : IDraw2d.VAlign) : Vec2 :=
  let result : Vec2 := { x := 0, y := 0 }
  let result :=
    match horizontalAlignment with
    | IDraw2d.HAlign.Left => { result with x := position.x }
    | IDraw2d.HAlign.Center => { result with x := position.x - size.x * (1/2) }
    | IDraw2d.HAlign.Right => { result with x := position.x - size.x }
  let result :=
    match verticalAlignment with
    | IDraw2d.VAlign.Top => { result with y := position.y }
    | IDraw2d.VAlign.Center => { result with y := position.y - size.y * (1/2) }
    | IDraw2d.VAlign.Bottom => { result with y := position.y - size.y }
  result

/-- `Draw2dHelper::RoundXY` (static, instantiated at `AZ::Vector2`): round the X and Y
coordinates of a point using the given rounding policy. Direct translation of the
`switch`; `floor`/`ceil` are exact over `ℚ`. -/
def RoundXY (value : Vec2) (roundingType : IDraw2d.Rounding) : Vec2 :=
  let result := value
  match roundingType with
  | IDraw2d.Rounding.None => result
  | IDraw2d.Rounding.Nearest =>
      { result with x := (⌊value.x + 1/2⌋ : ℤ), y := (⌊value.y + 1/2⌋ : ℤ) }
  | IDraw2d.Rounding.Down =>
      { result with x := (⌊value.x⌋ : ℤ), y := (⌊value.y⌋ : ℤ) }
  | IDraw2d.Rounding.Up =>
      { result with x := (⌈value.x⌉ : ℤ), y := (⌈value.y⌉ : ℤ) }

end Draw2dHelper

/-- Modelling `UiTransformInterface::RectPoints` (declared in `UiTransformBus.h`, not
under src/): the rect's four corners (top left, top right, bottom right, bottom left). -/
structure RectPoints where
  pTopLeft : Vec2
  pTopRight : Vec2
  pBottomRight : Vec2
  pBottomLeft : Vec2
deriving DecidableEq, Repr

/-- Opaque image handle, modelling `AZ::Data::Instance<AZ::RPI::Image>`; the core never
inspects the image, so a bare identifier suffices (`none` models a null instance). -/
abbrev ImageInstance := Option Nat

/-- Modelled from the spec: one captured draw invocation submitted to the engine
(operation kind plus the parameters the caller passed). The concrete engine behind the
pure-virtual `IDraw2d` interface is not under src/; recording each submitted call is the
behaviour-agnostic model of "the helper invoked the engine's draw method with these
arguments". -/
inductive EngineCall where
  | DrawImage (image : ImageInstance) (position size : Vec2) (opacity rotation : ℚ)
      (pivotPoint minMaxTexCoords : Option Vec2) (imageOptions : IDraw2d.ImageOptions)
  | DrawImageAligned (image : ImageInstance) (position size : Vec2)
      (horizontalAlignment : IDraw2d.HAlign) (verticalAlignment : IDraw2d.VAlign)
      (opacity rotation : ℚ) (minMaxTexCoords : Option Vec2)
      (imageOptions : IDraw2d.ImageOptions)
  | DrawQuad (image : ImageInstance) (verts : List IDraw2d.VertexPosColUV)
      (pixelRounding : IDraw2d.Rounding) (clamp : Bool)
      (renderState : IDraw2d.RenderState)
  | DrawLine (startPoint endPoint : Vec2) (color : Color)
      (pixelRounding : IDraw2d.Rounding) (renderState : IDraw2d.RenderState)
  | DrawLineTextured (image : ImageInstance) (verts : List IDraw2d.VertexPosColUV)
      (pixelRounding : IDraw2d.Rounding) (renderState : IDraw2d.RenderState)
  | DrawRectOutlineTextured (image : ImageInstance) (points : RectPoints)
      (rightVec downVec : Vec2) (color : Color) (lineThickness : Nat)
  | DrawText (textString : String) (position : Vec2) (pointSize opacity : ℚ)
      (textOptions : IDraw2d.TextOptions)

/-- Modelled from the spec: the observable state of a concrete draw engine behind the
`IDraw2d` interface (the implementation is not under src/). It holds the current defer
flag, the engine's default option records, the sequence of draw calls submitted so far,
and an abstract font-measurement function used by `GetTextSize`. -/
structure EngineState where
  deferPrimitives : Bool
  defaultImageOptions : IDraw2d.ImageOptions
  defaultTextOptions : IDraw2d.TextOptions
  calls : List EngineCall
  textSizeFn : String → ℚ → IDraw2d.TextOptions → Vec2

/-- Modelled from the spec: `IDraw2d::GetDeferPrimitives` returns whether future
primitives will be deferred. -/
def EngineState.GetDeferPrimitives (e : EngineState) : Bool :=
  e.deferPrimitives

/-- Modelled from the spec: `IDraw2d::SetDeferPrimitives` sets whether to defer future
primitives, leaving the rest of the engine state unchanged. -/
def EngineState.SetDeferPrimitives (e : EngineState) (deferPrimitives : Bool) : EngineState :=
  { e with deferPrimitives := deferPrimitives }

/-- Modelled from the spec: `IDraw2d::GetDefaultImageOptions` returns the engine's
current default image options. -/
def EngineState.GetDefaultImageOptions (e : EngineState) : IDraw2d.ImageOptions :=
  e.defaultImageOptions

/-- Modelled from the spec: `IDraw2d::GetDefaultTextOptions` returns the engine's
current default text options. -/
def EngineState.GetDefaultTextOptions (e : EngineState) : IDraw2d.TextOptions :=
  e.defaultTextOptions

/-- Modelled from the spec: submitting a draw call to the engine records it (whether it
is rasterized immediately or deferred is irrelevant to the helper-level claims). -/
def EngineState.submit (e : EngineState) (c : EngineCall) : EngineState :=
  { e with calls := e.calls ++ [c] }

/-- Modelled from the spec: `IDraw2d::GetTextSize` is a pure query delegating to the
font-measurement collaborator; it does not change engine state. -/
def EngineState.GetTextSize (e : EngineState) (textString : String) (pointSize : ℚ)
    (textOptions : IDraw2d.TextOptions) : Vec2 :=
  e.textSizeFn textString pointSize textOptions

/-- The data members of `Draw2dHelper`. The C++ `m_draw2d` pointer either is null or
points to the (single, externally threaded) engine; the embedding keeps only its
nullness as a `Bool`. -/
structure Draw2dHelper where
  m_imageOptions : IDraw2d.ImageOptions
  m_textOptions : IDraw2d.TextOptions
  m_draw2d : Bool
  m_previousDeferCalls : Bool

namespace Draw2dHelper

/-- `Draw2dHelper::InitCommon`. The engine lives outside the helper, so the embedding
threads it explicitly: `draw2d` is the constructor argument (`none` models a null
pointer) and `defaultDraw2d` is what `GetDefaultDraw2d()` returns (`none` models the
global locator finding no engine). Returns the constructed helper and the engine state
after construction. In the inert case the C++ members `m_previousDeferCalls`,
`m_imageOptions` and `m_textOptions` stay default-initialized/indeterminate and are
never subsequently read; the embedding gives them fixed defaults. -/
def InitCommon (draw2d : Option EngineState) (defaultDraw2d : Option EngineState)
    (deferCalls : Bool) : Draw2dHelper × Option EngineState :=
  let d := draw2d
  let d :=
    match d with
    | none => defaultDraw2d
    | some e => some e
  match d with
  | none =>
      ({ m_imageOptions := IDraw2d.ImageOptions.default
         m_textOptions := IDraw2d.TextOptions.default
         m_draw2d := false
         m_previousDeferCalls := false }, none)
  | some e =>
      ({ m_imageOptions := e.GetDefaultImageOptions
         m_textOptions := e.GetDefaultTextOptions
         m_draw2d := true
         m_previousDeferCalls := e.GetDeferPrimitives },
        some (e.SetDeferPrimitives deferCalls))

/-- The `Draw2dHelper(bool deferCalls)` constructor: `InitCommon(nullptr, deferCalls)`. -/
def mkDefault (defaultDraw2d : Option EngineState) (deferCalls : Bool) :
    Draw2dHelper × Option EngineState :=
  InitCommon none defaultDraw2d deferCalls

/-- The `Draw2dHelper(IDraw2d* draw2d, bool deferCalls)` constructor:
`InitCommon(draw2d, deferCalls)`. -/
def mkWith (draw2d : Option EngineState) (defaultDraw2d : Option EngineState)
    (deferCalls : Bool) : Draw2dHelper × Option EngineState :=
  InitCommon draw2d defaultDraw2d deferCalls

/-- `Draw2dHelper::~Draw2dHelper`: if an engine was resolved, restore its defer mode to
the value captured at construction; otherwise do nothing. -/
def destruct (h : Draw2dHelper) (engine : Option EngineState) : Option EngineState :=
  if h.m_draw2d then
    engine.map fun e => e.SetDeferPrimitives h.m_previousDeferCalls
  else engine

/-- `Draw2dHelper::DrawImage`: forwards to the engine with the helper's local image
options, or does nothing when `m_draw2d` is null. -/
def DrawImage (h : Draw2dHelper) (engine : Option EngineState) (image : ImageInstance)
    (position size : Vec2) (opacity rotation : ℚ)
    (pivotPoint minMaxTexCoords : Option Vec2) : Option EngineState :=
  if h.m_draw2d then
    engine.map fun e =>
      e.submit (EngineCall.DrawImage image position size opacity rotation pivotPoint
        minMaxTexCoords h.m_imageOptions)
  else engine

/-- `Draw2dHelper::DrawImageAligned`: forwards to the engine with the helper's local
image options, or does nothing when `m_draw2d` is null. -/
def DrawImageAligned (h : Draw2dHelper) (engine : Option EngineState)
    (image : ImageInstance) (position size : Vec2)
    (horizontalAlignment : IDraw2d.HAlign) (verticalAlignment : IDraw2d.VAlign)
    (opacity rotation : ℚ) (minMaxTexCoords : Option Vec2) : Option EngineState :=
  if h.m_draw2d then
    engine.map fun e =>
      e.submit (EngineCall.DrawImageAligned image position size horizontalAlignment
        verticalAlignment opacity rotation minMaxTexCoords h.m_imageOptions)
  else engine

/-- `Draw2dHelper::DrawQuad`: forwards to the engine, or does nothing when `m_draw2d`
is null. -/
def DrawQuad (h : Draw2dHelper) (engine : Option EngineState) (image : ImageInstance)
    (verts : List IDraw2d.VertexPosColUV) (pixelRounding : IDraw2d.Rounding)
    (clamp : Bool) (renderState : IDraw2d.RenderState) : Option EngineState :=
  if h.m_draw2d then
    engine.map fun e =>
      e.submit (EngineCall.DrawQuad image verts pixelRounding clamp renderState)
  else engine

/-- `Draw2dHelper::DrawLine`: forwards to the engine, or does nothing when `m_draw2d`
is null. -/
def DrawLine (h : Draw2dHelper) (engine : Option EngineState)
    (startPoint endPoint : Vec2) (color : Color) (pixelRounding : IDraw2d.Rounding)
    (renderState : IDraw2d.RenderState) : Option EngineState :=
  if h.m_draw2d then
    engine.map fun e =>
      e.submit (EngineCall.DrawLine startPoint endPoint color pixelRounding renderState)
  else engine

/-- `Draw2dHelper::DrawLineTextured`: forwards to the engine, or does nothing when
`m_draw2d` is null. -/
def DrawLineTextured (h : Draw2dHelper) (engine : Option EngineState)
    (image : ImageInstance) (verts : List IDraw2d.VertexPosColUV)
    (pixelRounding : IDraw2d.Rounding) (renderState : IDraw2d.RenderState) :
    Option EngineState :=
  if h.m_draw2d then
    engine.map fun e =>
      e.submit (EngineCall.DrawLineTextured image verts pixelRounding renderState)
  else engine

/-- `Draw2dHelper::DrawRectOutlineTextured`: forwards to the engine, or does nothing
when `m_draw2d` is null. -/
def DrawRectOutlineTextured (h : Draw2dHelper) (engine : Option EngineState)
    (image : ImageInstance) (points : RectPoints) (rightVec downVec : Vec2)
    (color : Color) (lineThickness : Nat) : Option EngineState :=
  if h.m_draw2d then
    engine.map fun e =>
      e.submit (EngineCall.DrawRectOutlineTextured image points rightVec downVec color
        lineThickness)
  else engine

/-- `Draw2dHelper::DrawText`: forwards to the engine with the helper's local text
options, or does nothing when `m_draw2d` is null. -/
def DrawText (h : Draw2dHelper) (engine : Option EngineState) (textString : String)
    (position : Vec2) (pointSize opacity : ℚ) : Option EngineState :=
  if h.m_draw2d then
    engine.map fun e =>
      e.submit (EngineCall.DrawText textString position pointSize opacity h.m_textOptions)
  else engine

/-- `Draw2dHelper::GetTextSize`: queries the engine with the helper's local text
options, or returns `(0, 0)` when `m_draw2d` is null. (The branch where `m_draw2d` is
set but no engine is threaded cannot arise from the constructors; it also answers
`(0, 0)`.) -/
def GetTextSize (h : Draw2dHelper) (engine : Option EngineState) (textString : String)
    (pointSize : ℚ) : Vec2 :=
  if h.m_draw2d then
    match engine with
    | some e => e.GetTextSize textString pointSize h.m_textOptions
    | none => { x := 0, y := 0 }
  else { x := 0, y := 0 }

/-! The state-management setters of `Draw2dHelper`. Each C++ setter body assigns only to
the helper's own `m_imageOptions`/`m_textOptions` members; the embedding of a member
function uniformly transforms the whole reachable state, the pair of the helper record
and the threaded engine state, so the engine component is returned as received, exactly
as the source bodies never mention `m_draw2d`. -/

/-- `Draw2dHelper::SetImageBlendMode`. -/
def SetImageBlendMode (h : Draw2dHelper) (engine : Option EngineState)
    (blendState : TargetBlendState) : Draw2dHelper × Option EngineState :=
  ({ h with m_imageOptions :=
      { h.m_imageOptions with m_renderState :=
          { h.m_imageOptions.m_renderState with m_blendState := blendState } } }, engine)

/-- `Draw2dHelper::SetImageColor`. -/
def SetImageColor (h : Draw2dHelper) (engine : Option EngineState) (color : Vec3) :
    Draw2dHelper × Option EngineState :=
  ({ h with m_imageOptions := { h.m_imageOptions with color := color } }, engine)

/-- `Draw2dHelper::SetImagePixelRounding`. -/
def SetImagePixelRounding (h : Draw2dHelper) (engine : Option EngineState)
    (round : IDraw2d.Rounding) : Draw2dHelper × Option EngineState :=
  ({ h with m_imageOptions := { h.m_imageOptions with pixelRounding := round } }, engine)

/-- `Draw2dHelper::SetImageDepthState`. -/
def SetImageDepthState (h : Draw2dHelper) (engine : Option EngineState)
    (depthState : DepthState) : Draw2dHelper × Option EngineState :=
  ({ h with m_imageOptions :=
      { h.m_imageOptions with m_renderState :=
          { h.m_imageOptions.m_renderState with m_depthState := depthState } } }, engine)

/-- `Draw2dHelper::SetImageClamp`. -/
def SetImageClamp (h : Draw2dHelper) (engine : Option EngineState) (clamp : Bool) :
    Draw2dHelper × Option EngineState :=
  ({ h with m_imageOptions := { h.m_imageOptions with m_clamp := clamp } }, engine)

/-- `Draw2dHelper::SetTextFont`. -/
def SetTextFont (h : Draw2dHelper) (engine : Option EngineState) (fontName : String) :
    Draw2dHelper × Option EngineState :=
  ({ h with m_textOptions := { h.m_textOptions with fontName := fontName } }, engine)

/-- `Draw2dHelper::SetTextEffectIndex`. -/
def SetTextEffectIndex (h : Draw2dHelper) (engine : Option EngineState)
    (effectIndex : Nat) : Draw2dHelper × Option EngineState :=
  ({ h with m_textOptions := { h.m_textOptions with effectIndex := effectIndex } }, engine)

/-- `Draw2dHelper::SetTextColor`. -/
def SetTextColor (h : Draw2dHelper) (engine : Option EngineState) (color : Vec3) :
    Draw2dHelper × Option EngineState :=
  ({ h with m_textOptions := { h.m_textOptions with color := color } }, engine)

/-- `Draw2dHelper::SetTextAlignment`. -/
def SetTextAlignment (h : Draw2dHelper) (engine : Option EngineState)
    (horizontalAlignment : IDraw2d.HAlign) (verticalAlignment : IDraw2d.VAlign) :
    Draw2dHelper × Option EngineState :=
  ({ h with m_textOptions :=
      { h.m_textOptions with
        horizontalAlignment := horizontalAlignment
        verticalAlignment := verticalAlignment } }, engine)

/-- `Draw2dHelper::SetTextDropShadow`. -/
def SetTextDropShadow (h : Draw2dHelper) (engine : Option EngineState) (offset : Vec2)
    (color : Color) : Draw2dHelper × Option EngineState :=
  ({ h with m_textOptions :=
      { h.m_textOptions with
        dropShadowOffset := offset
        dropShadowColor := color } }, engine)

/-- `Draw2dHelper::SetTextRotation`. -/
def SetTextRotation (h : Draw2dHelper) (engine : Option EngineState) (rotation : ℚ) :
    Draw2dHelper × Option EngineState :=
  ({ h with m_textOptions := { h.m_textOptions with rotation := rotation } }, engine)

/-- `Draw2dHelper::SetTextDepthTestEnabled`. -/
def SetTextDepthTestEnabled (h : Draw2dHelper) (engine : Option EngineState)
    (enabled : Bool) : Draw2dHelper × Option EngineState :=
  ({ h with m_textOptions := { h.m_textOptions with depthTestEnabled := enabled } }, engine)

end Draw2dHelper

/-! ## Theorems -/

/-- Claim C2: for every position, size and each of the 9 alignment combinations,
`Draw2dHelper::Align` returns the top-left corner given by the per-axis formulas
(`Left`/`Top`: unchanged; `Center`: minus half the size; `Right`/`Bottom`: minus the
size); in particular `Align((100,50),(20,10),Center,Bottom) = (90,40)`. -/
theorem align_matches_formula (position size : Vec2) (horizontalAlignment : IDraw2d.HAlign)
    (verticalAlignment : IDraw2d.VAlign) :
    ((Draw2dHelper.Align position size horizontalAlignment verticalAlignment).x =
      match horizontalAlignment with
      | IDraw2d.HAlign.Left => position.x
      | IDraw2d.HAlign.Center => position.x - size.x / 2
      | IDraw2d.HAlign.Right => position.x - size.x)
    ∧ ((Draw2dHelper.Align position size horizontalAlignment verticalAlignment).y =
      match verticalAlignment with
      | IDraw2d.VAlign.Top => position.y
      | IDraw2d.VAlign.Center => position.y - size.y / 2
      | IDraw2d.VAlign.Bottom => position.y - size.y)
    ∧ Draw2dHelper.Align { x := 100, y := 50 } { x := 20, y := 10 }
        IDraw2d.HAlign.Center IDraw2d.VAlign.Bottom = { x := 90, y := 40 } := by
  refine ⟨?_, ?_, ?_⟩
  · cases horizontalAlignment <;> cases verticalAlignment <;>
      simp [Draw2dHelper.Align] <;> ring
  · cases horizontalAlignment <;> cases verticalAlignment <;>
      simp [Draw2dHelper.Align] <;> ring
  · simp [Draw2dHelper.Align, Vec2.mk.injEq]
    norm_num

/-- Claim C3: `Draw2dHelper::RoundXY` applies the rounding policy independently per
axis and matches the formulas exactly: `None` is the identity, `Nearest` is
`floor(component + 0.5)` (ties toward +infinity), `Down` is `floor`, `Up` is `ceil`;
in particular `RoundXY((3.4,3.6),Nearest) = (3,4)`, `RoundXY((3.4,3.6),Up) = (4,4)`,
`RoundXY((3.4,3.6),Down) = (3,3)`. -/
theorem roundxy_matches_formula (v : Vec2) :
    Draw2dHelper.RoundXY v IDraw2d.Rounding.None = v
    ∧ Draw2dHelper.RoundXY v IDraw2d.Rounding.Nearest =
        { x := (⌊v.x + 1/2⌋ : ℤ), y := (⌊v.y + 1/2⌋ : ℤ) }
    ∧ Draw2dHelper.RoundXY v IDraw2d.Rounding.Down = { x := (⌊v.x⌋ : ℤ), y := (⌊v.y⌋ : ℤ) }
    ∧ Draw2dHelper.RoundXY v IDraw2d.Rounding.Up = { x := (⌈v.x⌉ : ℤ), y := (⌈v.y⌉ : ℤ) }
    ∧ Draw2dHelper.RoundXY { x := 3.4, y := 3.6 } IDraw2d.Rounding.Nearest
        = { x := 3, y := 4 }
    ∧ Draw2dHelper.RoundXY { x := 3.4, y := 3.6 } IDraw2d.Rounding.Up = { x := 4, y := 4 }
    ∧ Draw2dHelper.RoundXY { x := 3.4, y := 3.6 } IDraw2d.Rounding.Down
        = { x := 3, y := 3 } := by
  refine ⟨rfl, rfl, rfl, rfl, ?_, ?_, ?_⟩
  · simp [Draw2dHelper.RoundXY, Vec2.mk.injEq]
    norm_num
  · have h1 : ⌈(3.4 : ℚ)⌉ = 4 := by rw [Int.ceil_eq_iff]; norm_num
    have h2 : ⌈(3.6 : ℚ)⌉ = 4 := by rw [Int.ceil_eq_iff]; norm_num
    simp [Draw2dHelper.RoundXY, Vec2.mk.injEq, h1, h2]
  · simp [Draw2dHelper.RoundXY, Vec2.mk.injEq]
    norm_num

/-- Claim C4: `RoundXY` is idempotent for every 2D value and every rounding policy:
rounding an already rounded point changes nothing. -/
theorem roundxy_idempotent (v : Vec2) (p : IDraw2d.Rounding) :
    Draw2dHelper.RoundXY (Draw2dHelper.RoundXY v p) p = Draw2dHelper.RoundXY v p := by
  cases p with
  | None => rfl
  | Nearest =>
      simp only [Draw2dHelper.RoundXY, Vec2.mk.injEq]
      constructor <;> · rw [Int.floor_int_add]; norm_num
  | Down =>
      simp [Draw2dHelper.RoundXY, Int.floor_intCast]
  | Up =>
      simp [Draw2dHelper.RoundXY, Int.ceil_intCast]

/-- Claim C10: for every 2D value and every rounding policy other than `None`, both
components of `RoundXY` are integer-valued, so the rounded point lies on a pixel
boundary. -/
theorem roundxy_integral (v : Vec2) (p : IDraw2d.Rounding)
    (h : p ≠ IDraw2d.Rounding.None) :
    ∃ mx my : ℤ, Draw2dHelper.RoundXY v p = { x := (mx : ℚ), y := (my : ℚ) } := by
  cases p with
  | None => exact absurd rfl h
  | Nearest => exact ⟨⌊v.x + 1/2⌋, ⌊v.y + 1/2⌋, rfl⟩
  | Down => exact ⟨⌊v.x⌋, ⌊v.y⌋, rfl⟩
  | Up => exact ⟨⌈v.x⌉, ⌈v.y⌉, rfl⟩

/-- Witness for `roundxy_integral` at the concrete input `(3.4, 3.6)` with the
`Nearest` policy. -/
theorem roundxy_integral_witness :
    IDraw2d.Rounding.Nearest ≠ IDraw2d.Rounding.None
    ∧ ∃ mx my : ℤ, Draw2dHelper.RoundXY { x := 3.4, y := 3.6 } IDraw2d.Rounding.Nearest
        = { x := (mx : ℚ), y := (my : ℚ) } :=
  ⟨by decide, roundxy_integral { x := 3.4, y := 3.6 } IDraw2d.Rounding.Nearest (by decide)⟩

/-- Claim C1: over an engine with defer mode `D0`, constructing helper A with defer
flag `D1` and then nested helper B with defer flag `D2`, destroying B restores the
engine's defer mode to `D1` and destroying A afterwards restores it to
`D0 = e0.GetDeferPrimitives`; each helper's destructor writes back exactly the defer
mode it captured at its own construction (`m_previousDeferCalls`), giving strict LIFO
restoration. -/
theorem nested_scopes_restore_defer_lifo (e0 : EngineState) (D1 D2 : Bool) :
    let a := Draw2dHelper.mkWith (some e0) none D1
    let b := Draw2dHelper.mkWith a.2 none D2
    let afterB := b.1.destruct b.2
    let afterA := a.1.destruct afterB
    a.1.m_previousDeferCalls = e0.GetDeferPrimitives
    ∧ b.1.m_previousDeferCalls = D1
    ∧ afterB.map EngineState.GetDeferPrimitives = some D1
    ∧ afterA.map EngineState.GetDeferPrimitives = some e0.GetDeferPrimitives := by
  exact ⟨rfl, rfl, rfl, rfl⟩

/-- Claim C5: constructing a `Draw2dHelper` over engine `E` with defer flag `d` —
through the explicit-engine constructor, or through the default constructor when the
locator finds `E` — saves `E`'s current defer mode into `m_previousDeferCalls`, sets
`E`'s defer mode to `d` (changing nothing else of `E`), and copies `E`'s current default
image and text options into the helper's local records. -/
theorem construction_saves_sets_and_copies (e : EngineState) (d : Bool)
    (anyDefault : Option EngineState) :
    (let c := Draw2dHelper.mkWith (some e) anyDefault d
     c.1.m_draw2d = true
     ∧ c.1.m_previousDeferCalls = e.GetDeferPrimitives
     ∧ c.1.m_imageOptions = e.GetDefaultImageOptions
     ∧ c.1.m_textOptions = e.GetDefaultTextOptions
     ∧ c.2 = some (e.SetDeferPrimitives d)
     ∧ c.2.map EngineState.GetDeferPrimitives = some d)
    ∧ (let c := Draw2dHelper.mkDefault (some e) d
       c.1.m_draw2d = true
       ∧ c.1.m_previousDeferCalls = e.GetDeferPrimitives
       ∧ c.1.m_imageOptions = e.GetDefaultImageOptions
       ∧ c.1.m_textOptions = e.GetDefaultTextOptions
       ∧ c.2 = some (e.SetDeferPrimitives d)
       ∧ c.2.map EngineState.GetDeferPrimitives = some d) := by
  exact ⟨⟨rfl, rfl, rfl, rfl, rfl, rfl⟩, ⟨rfl, rfl, rfl, rfl, rfl, rfl⟩⟩

/-- Claim C6: a helper that resolved no engine (null constructor argument and no
default engine available) is inert: every forwarding draw method and the destructor
leaves the threaded engine state exactly as it was, and `GetTextSize` returns the zero
size, for all arguments. -/
theorem inert_helper_noop (deferCalls : Bool)
    (c : Draw2dHelper × Option EngineState) :
    c = Draw2dHelper.mkWith none none deferCalls →
    c.2 = none
    ∧ c.1.m_draw2d = false
    ∧ (∀ engine image position size opacity rotation pivotPoint minMaxTexCoords,
        c.1.DrawImage engine image position size opacity rotation pivotPoint
          minMaxTexCoords = engine)
    ∧ (∀ engine image position size horizontalAlignment verticalAlignment opacity
          rotation minMaxTexCoords,
        c.1.DrawImageAligned engine image position size horizontalAlignment
          verticalAlignment opacity rotation minMaxTexCoords = engine)
    ∧ (∀ engine image verts pixelRounding clamp renderState,
        c.1.DrawQuad engine image verts pixelRounding clamp renderState = engine)
    ∧ (∀ engine startPoint endPoint color pixelRounding renderState,
        c.1.DrawLine engine startPoint endPoint color pixelRounding renderState = engine)
    ∧ (∀ engine image verts pixelRounding renderState,
        c.1.DrawLineTextured engine image verts pixelRounding renderState = engine)
    ∧ (∀ engine image points rightVec downVec color lineThickness,
        c.1.DrawRectOutlineTextured engine image points rightVec downVec color
          lineThickness = engine)
    ∧ (∀ engine textString position pointSize opacity,
        c.1.DrawText engine textString position pointSize opacity = engine)
    ∧ (∀ engine textString pointSize,
        c.1.GetTextSize engine textString pointSize = { x := 0, y := 0 })
    ∧ (∀ engine, c.1.destruct engine = engine) := by
  rintro rfl
  refine ⟨rfl, rfl, ?_, ?_, ?_, ?_, ?_, ?_, ?_, ?_, ?_⟩ <;> intros <;> rfl

/-- Witness for `inert_helper_noop` at concrete inputs: the helper constructed with a
null engine and no default engine, with `deferCalls = true`, yields no engine state, a
null `m_draw2d`, `DrawLine` leaving the (absent) engine state untouched, `GetTextSize`
returning `(0, 0)`, and a no-op destructor. -/
theorem inert_helper_noop_witness :
    (Draw2dHelper.mkWith none none true = Draw2dHelper.mkWith none none true)
    ∧ (Draw2dHelper.mkWith none none true).2 = none
    ∧ (Draw2dHelper.mkWith none none true).1.m_draw2d = false
    ∧ (Draw2dHelper.mkWith none none true).1.DrawLine none { x := 0, y := 0 }
        { x := 1, y := 1 } { r := 1, g := 1, b := 1, a := 1 }
        IDraw2d.Rounding.Nearest IDraw2d.RenderState.default = none
    ∧ (Draw2dHelper.mkWith none none true).1.GetTextSize none "hello" 12
        = { x := 0, y := 0 }
    ∧ (Draw2dHelper.mkWith none none true).1.destruct none = none := by
  have h := inert_helper_noop true (Draw2dHelper.mkWith none none true) rfl
  exact ⟨rfl, h.1, h.2.1,
    h.2.2.2.2.2.1 none { x := 0, y := 0 } { x := 1, y := 1 }
      { r := 1, g := 1, b := 1, a := 1 } IDraw2d.Rounding.Nearest
      IDraw2d.RenderState.default,
    h.2.2.2.2.2.2.2.2.2.1 none "hello" 12,
    h.2.2.2.2.2.2.2.2.2.2 none⟩

/-- Claim C7: a default-constructed `ImageOptions` has opaque-white tint, `Nearest`
pixel rounding and clamp off, and its default-constructed `RenderState` enables
blending with `AlphaSource`/`AlphaSourceInverse` factors and disables the depth
test. -/
theorem imageOptions_default_spec :
    IDraw2d.ImageOptions.default.color = { x := 1, y := 1, z := 1 }
    ∧ IDraw2d.ImageOptions.default.pixelRounding = IDraw2d.Rounding.Nearest
    ∧ IDraw2d.ImageOptions.default.m_clamp = false
    ∧ IDraw2d.ImageOptions.default.m_renderState = IDraw2d.RenderState.default
    ∧ IDraw2d.RenderState.default.m_blendState.m_enable = true
    ∧ IDraw2d.RenderState.default.m_blendState.m_blendSource = BlendFactor.AlphaSource
    ∧ IDraw2d.RenderState.default.m_blendState.m_blendDest = BlendFactor.AlphaSourceInverse
    ∧ IDraw2d.RenderState.default.m_depthState.m_enable = false := by
  exact ⟨rfl, rfl, rfl, rfl, rfl, rfl, rfl, rfl⟩

/-- Claim C8: the default `TextOptions` record has `Left`/`Top` alignment, rotation 0,
effect index 0, color `(1,1,1)`, and an inactive drop shadow: zero offset and a
drop-shadow color with zero alpha. -/
theorem textOptions_default_spec :
    IDraw2d.TextOptions.default.horizontalAlignment = IDraw2d.HAlign.Left
    ∧ IDraw2d.TextOptions.default.verticalAlignment = IDraw2d.VAlign.Top
    ∧ IDraw2d.TextOptions.default.rotation = 0
    ∧ IDraw2d.TextOptions.default.effectIndex = 0
    ∧ IDraw2d.TextOptions.default.color = { x := 1, y := 1, z := 1 }
    ∧ IDraw2d.TextOptions.default.dropShadowOffset = { x := 0, y := 0 }
    ∧ IDraw2d.TextOptions.default.dropShadowColor.a = 0 := by
  exact ⟨rfl, rfl, rfl, rfl, rfl, rfl, rfl⟩

/-- Claim C9: every `Draw2dHelper` setter mutates only the helper's local option
records: the threaded engine state (hence the engine's defer mode and its default
option records) is returned untouched, and the helper's other members (`m_draw2d`,
`m_previousDeferCalls`) are unchanged, for all twelve setters and all arguments. -/
theorem setters_touch_only_local_options (h : Draw2dHelper) (engine : Option EngineState)
    (blendState : TargetBlendState) (imageColor : Vec3) (round : IDraw2d.Rounding)
    (depthState : DepthState) (clamp : Bool) (fontName : String) (effectIndex : Nat)
    (textColor : Vec3) (hAlign : IDraw2d.HAlign) (vAlign : IDraw2d.VAlign)
    (offset : Vec2) (shadowColor : Color) (rotation : ℚ) (enabled : Bool) :
    ((h.SetImageBlendMode engine blendState).2 = engine
      ∧ (h.SetImageBlendMode engine blendState).1.m_draw2d = h.m_draw2d
      ∧ (h.SetImageBlendMode engine blendState).1.m_previousDeferCalls
          = h.m_previousDeferCalls)
    ∧ ((h.SetImageColor engine imageColor).2 = engine
      ∧ (h.SetImageColor engine imageColor).1.m_draw2d = h.m_draw2d
      ∧ (h.SetImageColor engine imageColor).1.m_previousDeferCalls
          = h.m_previousDeferCalls)
    ∧ ((h.SetImagePixelRounding engine round).2 = engine
      ∧ (h.SetImagePixelRounding engine round).1.m_draw2d = h.m_draw2d
      ∧ (h.SetImagePixelRounding engine round).1.m_previousDeferCalls
          = h.m_previousDeferCalls)
    ∧ ((h.SetImageDepthState engine depthState).2 = engine
      ∧ (h.SetImageDepthState engine depthState).1.m_draw2d = h.m_draw2d
      ∧ (h.SetImageDepthState engine depthState).1.m_previousDeferCalls
          = h.m_previousDeferCalls)
    ∧ ((h.SetImageClamp engine clamp).2 = engine
      ∧ (h.SetImageClamp engine clamp).1.m_draw2d = h.m_draw2d
      ∧ (h.SetImageClamp engine clamp).1.m_previousDeferCalls = h.m_previousDeferCalls)
    ∧ ((h.SetTextFont engine fontName).2 = engine
      ∧ (h.SetTextFont engine fontName).1.m_draw2d = h.m_draw2d
      ∧ (h.SetTextFont engine fontName).1.m_previousDeferCalls = h.m_previousDeferCalls)
    ∧ ((h.SetTextEffectIndex engine effectIndex).2 = engine
      ∧ (h.SetTextEffectIndex engine effectIndex).1.m_draw2d = h.m_draw2d
      ∧ (h.SetTextEffectIndex engine effectIndex).1.m_previousDeferCalls
          = h.m_previousDeferCalls)
    ∧ ((h.SetTextColor engine textColor).2 = engine
      ∧ (h.SetTextColor engine textColor).1.m_draw2d = h.m_draw2d
      ∧ (h.SetTextColor engine textColor).1.m_previousDeferCalls
          = h.m_previousDeferCalls)
    ∧ ((h.SetTextAlignment engine hAlign vAlign).2 = engine
      ∧ (h.SetTextAlignment engine hAlign vAlign).1.m_draw2d = h.m_draw2d
      ∧ (h.SetTextAlignment engine hAlign vAlign).1.m_previousDeferCalls
          = h.m_previousDeferCalls)
    ∧ ((h.SetTextDropShadow engine offset shadowColor).2 = engine
      ∧ (h.SetTextDropShadow engine offset shadowColor).1.m_draw2d = h.m_draw2d
      ∧ (h.SetTextDropShadow engine offset shadowColor).1.m_previousDeferCalls
          = h.m_previousDeferCalls)
    ∧ ((h.SetTextRotation engine rotation).2 = engine
      ∧ (h.SetTextRotation engine rotation).1.m_draw2d = h.m_draw2d
      ∧ (h.SetTextRotation engine rotation).1.m_previousDeferCalls
          = h.m_previousDeferCalls)
    ∧ ((h.SetTextDepthTestEnabled engine enabled).2 = engine
      ∧ (h.SetTextDepthTestEnabled engine enabled).1.m_draw2d = h.m_draw2d
      ∧ (h.SetTextDepthTestEnabled engine enabled).1.m_previousDeferCalls
          = h.m_previousDeferCalls) := by
  exact ⟨⟨rfl, rfl, rfl⟩, ⟨rfl, rfl, rfl⟩, ⟨rfl, rfl, rfl⟩, ⟨rfl, rfl, rfl⟩,
    ⟨rfl, rfl, rfl⟩, ⟨rfl, rfl, rfl⟩, ⟨rfl, rfl, rfl⟩, ⟨rfl, rfl, rfl⟩,
    ⟨rfl, rfl, rfl⟩, ⟨rfl, rfl, rfl⟩, ⟨rfl, rfl, rfl⟩, ⟨rfl, rfl, rfl⟩⟩
